import Mathlib

/-!
Verification of the core of `backyard_sun_map`: a shallow embedding of the
occlusion engine (`geometry.py`), the sun-direction resolver and time/solar
utilities (`solar.py`), the scene bounds resolution (`scene.py`), and the
exposure accumulator (`simulation.py`).

Numeric modelling: Python floats are modelled as elements of a linear ordered
field (instantiated at `ℚ` for executable geometry witnesses and at `ℝ` for
the trigonometric sun-direction resolver and the simulation driver).
Timestamps are modelled as integers (minutes since an epoch); stepping a
`datetime` by `timedelta(minutes=step)` is integer addition.

The external collaborators (shapely geometry predicates, the pvlib/pysolar
solar-position backends) are modelled as parameters: a `Geom` packages the
shapely operations the code calls (`contains`, boundary-segment intersection,
`.bounds`), and the two solar backends are availability flags plus
per-timestamp oracles.  Everything downstream of those calls is translated
from the repository source.
-/

namespace BackyardSunMap

section GeometryDefs

variable {α : Type} [LinearOrderedField α]

/-- Model of a shapely planar geometry, packaging exactly the operations the
repository calls on it: `contains` (strict-interior point membership),
intersection of the geometry's boundary with a segment (given by its two
endpoints, returning the list of crossing points that shapely's
`boundary.intersection(ray)` yields after the geometry-type dispatch on
lines 43-56 of `geometry.py`), and the bounding box `.bounds`
as (minx, miny, maxx, maxy). -/
structure Geom (α : Type) where
  contains : α × α → Bool
  boundaryInter : α × α → α × α → List (α × α)
  bbox : α × α × α × α

/-- `scene.SceneObject`: a parsed occluder (the `raw` source-dict field is
parsing metadata and is omitted). -/
structure SceneObject (α : Type) where
  type : String
  name : String
  height_ft : α
  geometry : Geom α

/-- `geometry.InternalGeometry`. -/
structure InternalGeometry (α : Type) where
  objects : List (SceneObject α)

/-- `scene.Location`. -/
structure Location (α : Type) where
  latitude : α
  longitude : α
  timezone : String

/-- `scene.Bounds`. -/
structure Bounds (α : Type) where
  x_min : Option α := none
  x_max : Option α := none
  y_min : Option α := none
  y_max : Option α := none
  padding_ft : α

/-- `scene.Scene`. -/
structure Scene (α : Type) where
  location : Location α
  orientation_deg_cw_from_north : α
  objects : List (SceneObject α)
  bounds : Option (Bounds α) := none

/-- `geometry.build_objects`. -/
def buildObjects (scene : Scene α) : InternalGeometry α :=
  InternalGeometry.mk scene.objects

/-- The per-intersection-point fold body of `_ray_intersection_distance`
(lines 61-75 of `geometry.py`): derive the parametric distance `s` from the
dominant axis, skip negative `s`, and keep the smallest `s` seen so far. -/
def rayBestStep (ox oy dx dy : α) (best : Option α) (p : α × α) : Option α :=
  if |dx| ≥ |dy| then
    if |dx| < 1 / 10 ^ 12 then best
    else
      let s := (p.1 - ox) / dx
      if s < 0 then best
      else
        match best with
        | none => some s
        | some b => if s < b then some s else some b
  else
    if |dy| < 1 / 10 ^ 12 then best
    else
      let s := (p.2 - oy) / dy
      if s < 0 then best
      else
        match best with
        | none => some s
        | some b => if s < b then some s else some b

/-- `geometry._ray_intersection_distance`: distance `s` along the ray
`origin + s * direction` to its first boundary crossing of `geom`.  The
shapely construction of the intersection-point list (lines 36-59) is
delegated to `geom.boundaryInter` applied to the ray's two endpoints; an
empty point list yields `none` exactly as lines 40-41 and 58-59 do. -/
def rayIntersectionDistance (geom : Geom α) (origin direction : α × α)
    (maxDist : α := 10 ^ 6) : Option α :=
  let ox := origin.1
  let oy := origin.2
  let dx := direction.1
  let dy := direction.2
  if |dx| < 1 / 10 ^ 12 ∧ |dy| < 1 / 10 ^ 12 then
    -- Straight up/down: only shaded if footprint contains origin.
    if geom.contains (ox, oy) then some 0 else none
  else
    let target := (ox + dx * maxDist, oy + dy * maxDist)
    let points := geom.boundaryInter (ox, oy) target
    points.foldl (rayBestStep ox oy dx dy) none

/-- The quick containment test on line 94 of `geometry.py`:
`obj.geometry.contains(Point(origin)) and obj.height_ft >= z_val`. -/
def quickShades (origin : α × α) (z_val : α) (obj : SceneObject α) : Bool :=
  obj.geometry.contains origin && decide (obj.height_ft ≥ z_val)

/-- The ray-casting test on lines 96-101 of `geometry.py`: nearest boundary
crossing `s`, then `z_at_s = z_val - s * dz` must lie in `[0, height]`. -/
def rayShades (origin : α × α) (z_val dz : α) (rayDir : α × α)
    (obj : SceneObject α) : Bool :=
  match rayIntersectionDistance obj.geometry origin rayDir with
  | none => false
  | some s =>
    let z_at_s := z_val - s * dz
    decide (0 ≤ z_at_s) && decide (z_at_s ≤ obj.height_ft)

/-- `geometry.is_point_shaded`: the early-`return True` loop over
`geometry.objects` is `List.any` of the two per-object tests. -/
def isPointShaded (x y z_ft : α) (sunDir : α × α × α)
    (geometry : InternalGeometry α) : Bool :=
  let dz := sunDir.2.2
  let z_val := z_ft
  if dz ≤ 0 then true
  else
    let origin := (x, y)
    let rayDir := (-sunDir.1, -sunDir.2.1)
    geometry.objects.any fun obj =>
      quickShades origin z_val obj || rayShades origin z_val dz rayDir obj

/-- The parametric distance the code assigns to one intersection point:
division along the dominant direction axis (lines 63-70 of `geometry.py`). -/
def sParam (origin d : α × α) (p : α × α) : α :=
  if |d.1| ≥ |d.2| then (p.1 - origin.1) / d.1 else (p.2 - origin.2) / d.2

/-- Spec-side description of the candidate crossings: the non-negative
parametric distances of all boundary intersection points of the bounded ray.
Used to state that `rayIntersectionDistance` returns their minimum. -/
def crossingDistances (geom : Geom α) (origin d : α × α) (maxDist : α) :
    List α :=
  ((geom.boundaryInter origin
      (origin.1 + d.1 * maxDist, origin.2 + d.2 * maxDist)).map
    (sParam origin d)).filter fun s => decide (0 ≤ s)

/-- Proper intersection point of segments `p1p2` and `q1q2` (via the standard
cross-product parametrisation; parallel or collinear pairs yield `none`).
Used to build concrete `Geom` fixtures modelling shapely's exact predicates
on rectangles. -/
def segIntersection (p1 p2 q1 q2 : α × α) : Option (α × α) :=
  let r := (p2.1 - p1.1, p2.2 - p1.2)
  let s := (q2.1 - q1.1, q2.2 - q1.2)
  let denom := r.1 * s.2 - r.2 * s.1
  if denom = 0 then none
  else
    let t := ((q1.1 - p1.1) * s.2 - (q1.2 - p1.2) * s.1) / denom
    let u := ((q1.1 - p1.1) * r.2 - (q1.2 - p1.2) * r.1) / denom
    if 0 ≤ t ∧ t ≤ 1 ∧ 0 ≤ u ∧ u ≤ 1 then
      some (p1.1 + t * r.1, p1.2 + t * r.2)
    else none

/-- Concrete `Geom` fixture: the axis-aligned rectangle
`[x0, x1] × [y0, y1]` with shapely semantics — `contains` is strict interior
membership, and the boundary-segment intersection collects the proper
crossings of the query segment with the four edges. -/
def rectGeom (x0 y0 x1 y1 : α) : Geom α where
  contains := fun p =>
    decide (x0 < p.1) && decide (p.1 < x1) && decide (y0 < p.2) &&
      decide (p.2 < y1)
  boundaryInter := fun a b =>
    [((x0, y0), (x1, y0)), ((x1, y0), (x1, y1)),
     ((x1, y1), (x0, y1)), ((x0, y1), (x0, y0))].filterMap
      fun e => segIntersection a b e.1 e.2
  bbox := (x0, y0, x1, y1)

/-- `Scene.resolved_bounds` (lines 44-102 of `scene.py`), with Python's
`ValueError` modelled as `Except.error`. -/
def resolvedBounds (scene : Scene α) (defaultPadding : α := 656 / 100) :
    Except String (α × α × α × α) :=
  let padding :=
    match scene.bounds with
    | some b => b.padding_ft
    | none => defaultPadding
  match scene.objects with
  | [] =>
    match scene.bounds with
    | none => Except.error "Scene without objects requires explicit bounds."
    | some b =>
      match b.x_min, b.x_max, b.y_min, b.y_max with
      | some xmin, some xmax, some ymin, some ymax =>
        Except.ok (xmin, xmax, ymin, ymax)
      | _, _, _, _ =>
        Except.error
          "Explicit bounds must include x_min, x_max, y_min, and y_max when no objects are present."
  | o :: _ =>
    let xs := (scene.objects).foldr
      (fun obj acc => obj.geometry.bbox.1 :: obj.geometry.bbox.2.2.1 :: acc) []
    let ys := (scene.objects).foldr
      (fun obj acc => obj.geometry.bbox.2.1 :: obj.geometry.bbox.2.2.2 :: acc) []
    let infXMin := xs.foldl min (o.geometry.bbox.1)
    let infXMax := xs.foldl max (o.geometry.bbox.1)
    let infYMin := ys.foldl min (o.geometry.bbox.2.1)
    let infYMax := ys.foldl max (o.geometry.bbox.2.1)
    let xmin :=
      match scene.bounds with
      | some b => match b.x_min with
        | some v => v
        | none => infXMin - padding
      | none => infXMin - padding
    let xmax :=
      match scene.bounds with
      | some b => match b.x_max with
        | some v => v
        | none => infXMax + padding
      | none => infXMax + padding
    let ymin :=
      match scene.bounds with
      | some b => match b.y_min with
        | some v => v
        | none => infYMin - padding
      | none => infYMin - padding
    let ymax :=
      match scene.bounds with
      | some b => match b.y_max with
        | some v => v
        | none => infYMax + padding
      | none => infYMax + padding
    Except.ok (xmin, xmax, ymin, ymax)

end GeometryDefs

section ArangeDefs

variable {α : Type} [LinearOrderedField α] [FloorSemiring α]

/-- `numpy.arange(start, stop, step)` for a positive rational-like step:
the values `start + k * step` for `k < ⌈(stop - start) / step⌉`. -/
def arange (start stop step : α) : List α :=
  (List.range ⌈(stop - start) / step⌉₊).map fun k : ℕ =>
    start + (k : α) * step

end ArangeDefs

section SolarDefs

/-- The while loop of `generate_times` (lines 32-38 of `solar.py`):
timestamps are minutes since an epoch, `delta = step` minutes.  The loop
terminates because the step is positive. -/
def generateTimesAux (endT step : ℤ) (hstep : 0 < step) (cur : ℤ) :
    List ℤ :=
  if cur ≤ endT then cur :: generateTimesAux endT step hstep (cur + step)
  else []
termination_by (endT + step - cur).toNat
decreasing_by
  simp_wf
  omega

/-- `solar.generate_times`, with `ValueError` modelled as `Except.error`.
Timezone attachment (lines 23-27) does not change instant comparison and is
absorbed by modelling timestamps as absolute minutes. -/
def generateTimes (start_dt end_dt : ℤ) (step_minutes : ℤ) :
    Except String (List ℤ) :=
  if h : step_minutes ≤ 0 then
    Except.error "step_minutes must be positive."
  else if start_dt > end_dt then
    Except.error "start must be before end."
  else
    Except.ok (generateTimesAux end_dt step_minutes (by omega) start_dt)

/-- `solar.compute_solar_positions`.  The pvlib and pysolar backends are
external libraries: their importability is modelled by the two availability
flags (an unavailable backend is the `ImportError` branch), and their
per-timestamp output `(altitude_deg, azimuth_deg)` by the two oracle
functions; both `_compute_with_pvlib` and `_compute_with_pysolar` produce
one `SunPosition` per input timestamp, in input order. -/
def computeSolarPositions {α : Type} (pvlibAvailable pysolarAvailable : Bool)
    (pvlibPosition pysolarPosition : ℤ → α × α) (times : List ℤ) :
    Except String (List (α × α)) :=
  if pvlibAvailable then Except.ok (times.map pvlibPosition)
  else if pysolarAvailable then Except.ok (times.map pysolarPosition)
  else Except.error "pvlib or pysolar is required to compute solar positions."

/-- `np.radians`. -/
noncomputable def radians (deg : ℝ) : ℝ := deg * (Real.pi / 180)

/-- `solar.sun_vector_local` (lines 79-96 of `solar.py`). -/
noncomputable def sunVectorLocal (alt_deg az_deg orientation_deg : ℝ) :
    ℝ × ℝ × ℝ :=
  let alt_rad := radians alt_deg
  let az_rad := radians az_deg
  let dx_world := Real.sin az_rad * Real.cos alt_rad
  let dy_world := Real.cos az_rad * Real.cos alt_rad
  let dz_world := Real.sin alt_rad
  let theta := radians orientation_deg
  let x_dir_east := Real.sin theta
  let x_dir_north := Real.cos theta
  let y_dir_east := Real.sin (theta - Real.pi / 2)
  let y_dir_north := Real.cos (theta - Real.pi / 2)
  (dx_world * x_dir_east + dy_world * x_dir_north,
   dx_world * y_dir_east + dy_world * y_dir_north,
   dz_world)

end SolarDefs

section SimulationDefs

/-- `np.zeros((len(y_grid), len(x_grid)))`. -/
def exposureInit (x_grid y_grid : List ℝ) : List (List ℝ) :=
  y_grid.map fun _ => x_grid.map fun _ => (0 : ℝ)

/-- The body of the `for position in positions` loop of `run_simulation`
(lines 32-41 of `simulation.py`): skip the timestamp when the altitude is
not positive, otherwise add `step_minutes` to every cell that is not
shaded. -/
noncomputable def stepExposure (orientationDeg : ℝ)
    (objects : InternalGeometry ℝ) (height_ft : ℝ) (stepMinutes : ℤ)
    (x_grid y_grid : List ℝ) (exposure : List (List ℝ))
    (position : ℝ × ℝ) : List (List ℝ) :=
  if position.1 ≤ 0 then exposure
  else
    let sun_dir := sunVectorLocal position.1 position.2 orientationDeg
    (y_grid.zip exposure).map fun yrow =>
      (x_grid.zip yrow.2).map fun xv =>
        if isPointShaded xv.1 yrow.1 height_ft sun_dir objects then xv.2
        else xv.2 + (stepMinutes : ℝ)

/-- The accumulation over the whole position list, starting from zeros. -/
noncomputable def exposureFold (orientationDeg : ℝ)
    (objects : InternalGeometry ℝ) (height_ft : ℝ) (stepMinutes : ℤ)
    (x_grid y_grid : List ℝ) (positions : List (ℝ × ℝ)) :
    List (List ℝ) :=
  positions.foldl
    (stepExposure orientationDeg objects height_ft stepMinutes x_grid y_grid)
    (exposureInit x_grid y_grid)

/-- `simulation.run_simulation`.  Time-series generation and the solar
provider are embedded separately (`generateTimes`, `computeSolarPositions`);
here the provider's per-timestamp output `(altitude_deg, azimuth_deg)` list
is taken as the `positions` input, matching lines 29-30 of
`simulation.py`.  The trailing `os.makedirs` side effect (lines 43-46) is
outside the returned value and is not modelled. -/
noncomputable def runSimulation (scene : Scene ℝ) (height_ft grid_res_ft : ℝ)
    (stepMinutes : ℤ) (positions : List (ℝ × ℝ)) :
    Except String (List ℝ × List ℝ × List (List ℝ)) :=
  let objects := buildObjects scene
  match resolvedBounds scene with
  | Except.error e => Except.error e
  | Except.ok (x_min, x_max, y_min, y_max) =>
    let x_grid := arange x_min (x_max + grid_res_ft) grid_res_ft
    let y_grid := arange y_min (y_max + grid_res_ft) grid_res_ft
    Except.ok (x_grid, y_grid,
      exposureFold scene.orientation_deg_cw_from_north objects height_ft
        stepMinutes x_grid y_grid positions)

end SimulationDefs

/-! ## Helper lemmas -/

section GeometryLemmas

variable {α : Type} [LinearOrderedField α]

/-- When both ray-direction components are below the tolerance, the ray
cast degenerates to the containment test of lines 29-33 of `geometry.py`. -/
theorem rayIntersectionDistance_degenerate (geom : Geom α) (ox oy dx dy : α)
    (maxDist : α) (h1 : |dx| < 1 / 10 ^ 12) (h2 : |dy| < 1 / 10 ^ 12) :
    rayIntersectionDistance geom (ox, oy) (dx, dy) maxDist =
      if geom.contains (ox, oy) then some 0 else none := by
  rw [rayIntersectionDistance, if_pos ⟨h1, h2⟩]

/-- In the degenerate (near-zenith) branch, the per-object test of the
`is_point_shaded` loop reduces to containment plus the height window. -/
theorem object_test_degenerate (x y z dx dy dz : α) (obj : SceneObject α)
    (h1 : |dx| < 1 / 10 ^ 12) (h2 : |dy| < 1 / 10 ^ 12) :
    (quickShades (x, y) z obj || rayShades (x, y) z dz (-dx, -dy) obj) =
      (obj.geometry.contains (x, y) && decide (z ≤ obj.height_ft)) := by
  have h1' : |(-dx)| < 1 / 10 ^ 12 := by rwa [abs_neg]
  have h2' : |(-dy)| < 1 / 10 ^ 12 := by rwa [abs_neg]
  rw [quickShades, rayShades,
    rayIntersectionDistance_degenerate obj.geometry x y (-dx) (-dy) _ h1' h2']
  cases hc : obj.geometry.contains (x, y) with
  | false => simp
  | true =>
    simp only [Bool.true_and, ge_iff_le, zero_mul, sub_zero]
    by_cases hz : z ≤ obj.height_ft
    · simp [hz]
    · simp [hz]

end GeometryLemmas

/-! ## Claim theorems -/

section ClaimC10

variable {α : Type} [LinearOrderedField α]

/-- C10: for every evaluation point, evaluation height, and occluder list
(including the empty list), `is_point_shaded` returns `True` whenever the
sun direction's vertical component `dz` is at most `0`: a below-or-at-horizon
direction is unconditionally classified as shaded before any occluder is
examined (lines 88-89 of `geometry.py`). -/
theorem is_point_shaded_below_horizon (x y z_ft : α) (sunDir : α × α × α)
    (G : InternalGeometry α) (hdz : sunDir.2.2 ≤ 0) :
    isPointShaded x y z_ft sunDir G = true := by
  rw [isPointShaded]
  simp only [hdz, if_true]

/-- Witness for C10 at a concrete input: direction `(0, 0, -1)` with an
empty occluder list is reported shaded. -/
theorem is_point_shaded_below_horizon_witness :
    isPointShaded (1 : ℚ) 2 3 (0, 0, -1) (InternalGeometry.mk []) = true :=
  is_point_shaded_below_horizon 1 2 3 (0, 0, -1) (InternalGeometry.mk [])
    (by norm_num)

end ClaimC10

section ClaimC5

variable {α : Type} [LinearOrderedField α]

/-- C5: an evaluation point whose `(x, y)` lies inside some occluder's
footprint, with that occluder's height at least the evaluation height, is
shaded for every sun direction (the quick test on lines 93-94 of
`geometry.py` fires inside the loop, and a non-positive `dz` short-circuits
even earlier). -/
theorem is_point_shaded_quick_exclusion (x y z_ft : α) (sunDir : α × α × α)
    (objs : List (SceneObject α)) (obj : SceneObject α) (hmem : obj ∈ objs)
    (hc : obj.geometry.contains (x, y) = true)
    (hh : z_ft ≤ obj.height_ft) :
    isPointShaded x y z_ft sunDir (InternalGeometry.mk objs) = true := by
  rw [isPointShaded]
  by_cases hdz : sunDir.2.2 ≤ 0
  · simp only [hdz, if_true]
  · simp only [hdz, if_false]
    refine List.any_eq_true.2 ⟨obj, hmem, ?_⟩
    have hq : quickShades (x, y) z_ft obj = true := by
      unfold quickShades
      rw [hc]
      simpa using hh
    rw [hq, Bool.true_or]

/-- Witness for C5 at a concrete input: a height-10 occluder over the point
`(5, 5)` shades it at evaluation height 5 under an oblique sun direction. -/
theorem is_point_shaded_quick_exclusion_witness :
    isPointShaded (5 : ℚ) 5 5 (1, 2, 3)
      (InternalGeometry.mk
        [SceneObject.mk "structure" "tall" 10 (rectGeom 0 0 10 10)]) =
      true :=
  is_point_shaded_quick_exclusion 5 5 5 (1, 2, 3)
    [SceneObject.mk "structure" "tall" 10 (rectGeom 0 0 10 10)]
    (SceneObject.mk "structure" "tall" 10 (rectGeom 0 0 10 10))
    (List.mem_singleton.2 rfl) (by norm_num [rectGeom]) (by norm_num)

end ClaimC5

section ClaimC1

variable {α : Type} [LinearOrderedField α]

/-- C1 (counterexample to the claim as stated): at zenith sun `(0, 0, 1)`,
a height-3 occluder whose footprint contains the point `(5, 5)` does NOT
shade the point at evaluation height 5, although the claim asserts that a
contained point is shaded independently of any height comparison. -/
theorem is_point_shaded_zenith_short_occluder_cex :
    (rectGeom (0 : ℚ) 0 10 10).contains (5, 5) = true ∧ (3 : ℚ) < 5 ∧
      isPointShaded (5 : ℚ) 5 5 (0, 0, 1)
        (InternalGeometry.mk
          [SceneObject.mk "structure" "short" 3 (rectGeom 0 0 10 10)]) =
        false := by
  refine ⟨by norm_num [rectGeom], by norm_num, ?_⟩
  norm_num [isPointShaded, quickShades, rayShades, rayIntersectionDistance,
    rectGeom]

/-- C1 (amended): when the sun direction's horizontal components are both
below the `1e-12` tolerance and `dz > 0`, `is_point_shaded` returns `True`
iff some occluder's footprint contains the point in plan view AND that
occluder's height is at least the evaluation height — the height comparison
is still performed (by the quick test, and by the `z_at_s` check applied to
the degenerate crossing distance `s = 0`), so a strictly shorter occluder
containing the point does not shade it. -/
theorem is_point_shaded_zenith_iff (x y z_ft dx dy dz : α)
    (objs : List (SceneObject α)) (h1 : |dx| < 1 / 10 ^ 12)
    (h2 : |dy| < 1 / 10 ^ 12) (h3 : 0 < dz) :
    isPointShaded x y z_ft (dx, dy, dz) (InternalGeometry.mk objs) = true ↔
      ∃ obj ∈ objs, obj.geometry.contains (x, y) = true ∧
        z_ft ≤ obj.height_ft := by
  rw [isPointShaded]
  simp only [not_le.2 h3, if_false]
  rw [List.any_eq_true]
  constructor
  · rintro ⟨obj, hmem, hobj⟩
    rw [object_test_degenerate x y z_ft dx dy dz obj h1 h2] at hobj
    simp only [Bool.and_eq_true, decide_eq_true_eq] at hobj
    exact ⟨obj, hmem, hobj.1, hobj.2⟩
  · rintro ⟨obj, hmem, hc, hz⟩
    refine ⟨obj, hmem, ?_⟩
    rw [object_test_degenerate x y z_ft dx dy dz obj h1 h2, hc]
    simpa using hz

/-- Witness for the amended C1 at a concrete input: at zenith, a height-10
occluder containing `(5, 5)` shades evaluation height 5. -/
theorem is_point_shaded_zenith_iff_witness :
    isPointShaded (5 : ℚ) 5 5 (0, 0, 1)
      (InternalGeometry.mk
        [SceneObject.mk "structure" "tall" 10 (rectGeom 0 0 10 10)]) =
      true :=
  (is_point_shaded_zenith_iff 5 5 5 0 0 1
      [SceneObject.mk "structure" "tall" 10 (rectGeom 0 0 10 10)]
      (by norm_num) (by norm_num) (by norm_num)).2
    ⟨SceneObject.mk "structure" "tall" 10 (rectGeom 0 0 10 10),
      List.mem_singleton.2 rfl, by norm_num [rectGeom], by norm_num⟩

end ClaimC1

section ClaimC7

/-- C7: for altitude 90 degrees, every azimuth, and every orientation,
`sun_vector_local` returns horizontal components exactly 0 and vertical
component exactly 1 (in the real-number model of the float computation),
independent of orientation. -/
theorem sun_vector_local_zenith (az_deg orientation_deg : ℝ) :
    sunVectorLocal 90 az_deg orientation_deg = (0, 0, 1) := by
  have h : (90 : ℝ) * (Real.pi / 180) = Real.pi / 2 := by ring
  simp [sunVectorLocal, radians, h]

end ClaimC7

section ClaimC2

/-- C2 (counterexample to the claim as stated): at altitude 0, azimuth 0
(due north) and orientation 0, the local direction returned by
`sun_vector_local` is not approximately `(0, 1, 0)` — its y component is
exactly 0, not within `1/2` of 1 (its value is `(1, 0, 0)`). -/
theorem sun_vector_local_north_cex :
    ¬ (|(sunVectorLocal 0 0 0).1 - 0| ≤ 1 / 2 ∧
       |(sunVectorLocal 0 0 0).2.1 - 1| ≤ 1 / 2 ∧
       |(sunVectorLocal 0 0 0).2.2 - 0| ≤ 1 / 2) := by
  have hval : sunVectorLocal 0 0 0 = (1, 0, 0) := by
    simp [sunVectorLocal, radians]
  rw [hval]
  intro h
  have := h.2.1
  norm_num at this

/-- C2 (amended): at altitude 0, azimuth 0 (due north) and orientation 0,
`sun_vector_local` returns exactly `(1, 0, 0)`: the world-north sun
direction maps to the local x axis, because the code points the local x
axis at bearing `orientation` and the local y axis at bearing
`orientation - 90°` (west when orientation is 0). -/
theorem sun_vector_local_north_maps_to_local_x :
    sunVectorLocal 0 0 0 = (1, 0, 0) := by
  simp [sunVectorLocal, radians]

end ClaimC2

section TimeLemmas

/-- One unfolding of the `generate_times` while loop. -/
theorem generateTimesAux_eq (endT step : ℤ) (h : 0 < step) (cur : ℤ) :
    generateTimesAux endT step h cur =
      if cur ≤ endT then cur :: generateTimesAux endT step h (cur + step)
      else [] := by
  rw [generateTimesAux]

/-- The loop emits exactly the arithmetic progression
`cur, cur + step, ...` truncated at `endT`. -/
theorem generateTimesAux_mem (endT step : ℤ) (hstep : 0 < step)
    (cur t : ℤ) :
    t ∈ generateTimesAux endT step hstep cur ↔
      ∃ k : ℕ, t = cur + (k : ℤ) * step ∧ t ≤ endT := by
  induction cur using generateTimesAux.induct endT step hstep
  next cur hle ih =>
    rw [generateTimesAux_eq, if_pos hle, List.mem_cons, ih]
    constructor
    · rintro (rfl | ⟨k, hk, hkle⟩)
      · exact ⟨0, by simp, hle⟩
      · exact ⟨k + 1, by push_cast [hk]; ring, hkle⟩
    · rintro ⟨k, hk, hkle⟩
      cases k with
      | zero => left; simpa using hk
      | succ n => right; exact ⟨n, by push_cast [hk]; ring, hkle⟩
  next cur hgt =>
    rw [generateTimesAux_eq, if_neg hgt]
    simp only [List.not_mem_nil, false_iff]
    rintro ⟨k, rfl, hle⟩
    have hks : (0 : ℤ) ≤ (k : ℤ) * step :=
      mul_nonneg (Int.natCast_nonneg k) hstep.le
    have := not_le.1 hgt
    linarith

/-- The emitted timestamps are strictly increasing. -/
theorem generateTimesAux_chain (endT step : ℤ) (hstep : 0 < step)
    (cur : ℤ) :
    List.Chain' (· < ·) (generateTimesAux endT step hstep cur) := by
  induction cur using generateTimesAux.induct endT step hstep
  next cur hle ih =>
    rw [generateTimesAux_eq, if_pos hle, List.chain'_cons']
    refine ⟨?_, ih⟩
    intro b hb
    rw [generateTimesAux_eq] at hb
    by_cases h2 : cur + step ≤ endT
    · rw [if_pos h2] at hb
      simp only [List.head?_cons, Option.mem_def, Option.some.injEq] at hb
      omega
    · rw [if_neg h2] at hb
      simp at hb
  next cur hgt =>
    rw [generateTimesAux_eq, if_neg hgt]
    exact List.chain'_nil

/-- The loop emits at least one timestamp when `cur ≤ endT`. -/
theorem generateTimesAux_ne_nil (endT step : ℤ) (hstep : 0 < step)
    (cur : ℤ) (h : cur ≤ endT) :
    generateTimesAux endT step hstep cur ≠ [] := by
  rw [generateTimesAux_eq, if_pos h]
  simp

/-- Starting the loop at `endT` yields exactly one timestamp. -/
theorem generateTimesAux_singleton (endT step : ℤ) (hstep : 0 < step) :
    generateTimesAux endT step hstep endT = [endT] := by
  rw [generateTimesAux_eq, if_pos le_rfl, generateTimesAux_eq,
    if_neg (by omega)]

end TimeLemmas

section ClaimC8

/-- C8: `generate_times` errors iff `step_minutes ≤ 0` or `start > end`
(eagerly, before producing any timestamp); otherwise it returns the strictly
increasing sequence of all timestamps `start + k * step ≤ end` — inclusive
of `end` when `end` lies exactly on a step, by the membership
characterisation — and the sequence is non-empty, with `start = end`
yielding exactly one timestamp. -/
theorem generate_times_spec (start_dt end_dt step_minutes : ℤ) :
    ((∃ e, generateTimes start_dt end_dt step_minutes = Except.error e) ↔
        step_minutes ≤ 0 ∨ end_dt < start_dt) ∧
      ∀ l, generateTimes start_dt end_dt step_minutes = Except.ok l →
        List.Chain' (· < ·) l ∧
          (∀ t, t ∈ l ↔
            ∃ k : ℕ, t = start_dt + (k : ℤ) * step_minutes ∧ t ≤ end_dt) ∧
          l ≠ [] ∧ (start_dt = end_dt → l = [start_dt]) := by
  unfold generateTimes
  by_cases hs : step_minutes ≤ 0
  · rw [dif_pos hs]
    refine ⟨⟨fun _ => Or.inl hs, fun _ => ⟨_, rfl⟩⟩, ?_⟩
    intro l hl
    cases hl
  · rw [dif_neg hs]
    by_cases hse : start_dt > end_dt
    · rw [if_pos hse]
      refine ⟨⟨fun _ => Or.inr hse, fun _ => ⟨_, rfl⟩⟩, ?_⟩
      intro l hl
      cases hl
    · rw [if_neg hse]
      constructor
      · constructor
        · rintro ⟨e, he⟩
          cases he
        · intro h
          rcases h with h | h
          · exact absurd h hs
          · exact absurd h (not_lt.2 (not_lt.1 hse))
      · intro l hl
        injection hl with hl
        subst hl
        have hstep : 0 < step_minutes := by omega
        refine ⟨generateTimesAux_chain _ _ _ _,
          fun t => generateTimesAux_mem _ _ _ _ t,
          generateTimesAux_ne_nil _ _ _ _ (not_lt.1 hse), ?_⟩
        intro heq
        subst heq
        exact generateTimesAux_singleton _ _ _

/-- Witness for C8 at a concrete input: `generate_times(0, 10, 5)` yields
`[0, 5, 10]`, which is strictly increasing and contains the end timestamp
(it lies exactly on a step). -/
theorem generate_times_spec_witness :
    List.Chain' (· < ·) ([0, 5, 10] : List ℤ) ∧
      (10 : ℤ) ∈ ([0, 5, 10] : List ℤ) := by
  have hok : generateTimes 0 10 5 = Except.ok [0, 5, 10] := by
    rw [generateTimes]
    norm_num
    rw [generateTimesAux_eq]
    norm_num
    rw [generateTimesAux_eq]
    norm_num
    rw [generateTimesAux_eq]
    norm_num
    rw [generateTimesAux_eq]
    norm_num
  have h := (generate_times_spec 0 10 5).2 [0, 5, 10] hok
  exact ⟨h.1, (h.2.1 10).2 ⟨2, by norm_num, by norm_num⟩⟩

end ClaimC8

section ClaimC9

/-- C9: `compute_solar_positions` tries the pvlib backend first, falls back
to pysolar, and raises the single fatal error naming the missing capability
iff neither backend is importable; a successful call returns exactly one
position per input timestamp, in input order (the chosen backend mapped
over the timestamps). -/
theorem compute_solar_positions_spec {α : Type} (pa ps : Bool)
    (fa fb : ℤ → α × α) (times : List ℤ) :
    (computeSolarPositions pa ps fa fb times =
        Except.error
          "pvlib or pysolar is required to compute solar positions." ↔
      pa = false ∧ ps = false) ∧
    (pa = true →
      computeSolarPositions pa ps fa fb times =
        Except.ok (times.map fa)) ∧
    (pa = false → ps = true →
      computeSolarPositions pa ps fa fb times =
        Except.ok (times.map fb)) ∧
    ∀ l, computeSolarPositions pa ps fa fb times = Except.ok l →
      l.length = times.length ∧
        ∀ i : ℕ, l[i]? = times[i]?.map (if pa = true then fa else fb) := by
  cases pa <;> cases ps <;>
    simp [computeSolarPositions, List.getElem?_map]

/-- Witness for C9 at a concrete input: with pvlib unavailable and pysolar
available, the fallback backend is used, one output per timestamp in input
order. -/
theorem compute_solar_positions_spec_witness :
    computeSolarPositions false true (fun _ => ((0 : ℚ), 0))
        (fun t => ((t : ℚ), 2 * (t : ℚ))) [3, 7] =
      Except.ok [((3 : ℚ), 6), ((7 : ℚ), 14)] := by
  have h :=
    (compute_solar_positions_spec false true (fun _ => ((0 : ℚ), 0))
        (fun t => ((t : ℚ), 2 * (t : ℚ))) [3, 7]).2.2.1 rfl rfl
  rw [h]
  norm_num

end ClaimC9

section RayFoldLemmas

variable {α : Type} [LinearOrderedField α]

/-- Under a non-degenerate direction the per-point fold body never takes its
skip branches, computes `s` along the dominant axis, and keeps the minimum
of the non-negative `s` seen so far. -/
theorem rayBestStep_eq_min (ox oy dx dy : α)
    (hnd : ¬(|dx| < 1 / 10 ^ 12 ∧ |dy| < 1 / 10 ^ 12)) (acc : Option α)
    (p : α × α) :
    rayBestStep ox oy dx dy acc p =
      (if sParam (ox, oy) (dx, dy) p < 0 then acc
       else
         match acc with
         | none => some (sParam (ox, oy) (dx, dy) p)
         | some b => some (min b (sParam (ox, oy) (dx, dy) p))) := by
  rw [rayBestStep, sParam]
  by_cases hdom : |dx| ≥ |dy|
  · have hdx : ¬ |dx| < 1 / 10 ^ 12 := fun h =>
      hnd ⟨h, lt_of_le_of_lt hdom h⟩
    rw [if_pos hdom, if_neg hdx, if_pos hdom]
    by_cases hs : (p.1 - ox) / dx < 0
    · rw [if_pos hs, if_pos hs]
    · rw [if_neg hs, if_neg hs]
      cases acc with
      | none => rfl
      | some b =>
        by_cases hlt : (p.1 - ox) / dx < b
        · simp only [if_pos hlt, min_eq_right hlt.le]
        · simp only [if_neg hlt, min_eq_left (not_lt.1 hlt)]
  · have hdy : ¬ |dy| < 1 / 10 ^ 12 := fun h =>
      hnd ⟨lt_trans (not_le.1 hdom) h, h⟩
    rw [if_neg hdom, if_neg hdy, if_neg hdom]
    by_cases hs : (p.2 - oy) / dy < 0
    · rw [if_pos hs, if_pos hs]
    · rw [if_neg hs, if_neg hs]
      cases acc with
      | none => rfl
      | some b =>
        by_cases hlt : (p.2 - oy) / dy < b
        · simp only [if_pos hlt, min_eq_right hlt.le]
        · simp only [if_neg hlt, min_eq_left (not_lt.1 hlt)]

/-- Folding optional-min from a `some` accumulator folds plain `min`. -/
theorem foldl_optionMin_some (xs : List α) :
    ∀ b : α,
      xs.foldl
          (fun acc s =>
            match acc with
            | none => some s
            | some b => some (min b s)) (some b) =
        some (xs.foldl min b) := by
  induction xs with
  | nil => intro b; rfl
  | cons x rest ih =>
    intro b
    rw [List.foldl_cons, List.foldl_cons]
    exact ih (min b x)

/-- Folding optional-min over a list from `none` computes `List.min?`. -/
theorem foldl_optionMin_eq_min? (xs : List α) :
    xs.foldl
        (fun acc s =>
          match acc with
          | none => some s
          | some b => some (min b s)) none =
      xs.min? := by
  cases xs with
  | nil => rfl
  | cons x rest =>
    rw [List.foldl_cons, List.min?_cons']
    exact foldl_optionMin_some rest x

/-- The intersection-point fold of `_ray_intersection_distance` computes the
minimum of the non-negative dominant-axis parametric distances. -/
theorem rayBest_fold_eq_min? (ox oy dx dy : α)
    (hnd : ¬(|dx| < 1 / 10 ^ 12 ∧ |dy| < 1 / 10 ^ 12))
    (pts : List (α × α)) :
    pts.foldl (rayBestStep ox oy dx dy) none =
      ((pts.map (sParam (ox, oy) (dx, dy))).filter
        (fun s => decide (0 ≤ s))).min? := by
  have hgen : ∀ (l : List (α × α)) (acc : Option α),
      l.foldl (rayBestStep ox oy dx dy) acc =
        ((l.map (sParam (ox, oy) (dx, dy))).filter
            (fun s => decide (0 ≤ s))).foldl
          (fun acc s =>
            match acc with
            | none => some s
            | some b => some (min b s)) acc := by
    intro l
    induction l with
    | nil => intro acc; rfl
    | cons p rest ih =>
      intro acc
      rw [List.foldl_cons, ih, List.map_cons, List.filter_cons]
      by_cases hs : sParam (ox, oy) (dx, dy) p < 0
      · have hdec : decide (0 ≤ sParam (ox, oy) (dx, dy) p) = false :=
          decide_eq_false (not_le.2 hs)
        rw [rayBestStep_eq_min ox oy dx dy hnd, if_pos hs, hdec]
        simp only [Bool.false_eq_true, if_false]
      · have hdec : decide (0 ≤ sParam (ox, oy) (dx, dy) p) = true :=
          decide_eq_true (not_lt.1 hs)
        rw [rayBestStep_eq_min ox oy dx dy hnd, if_neg hs, hdec]
        simp only [if_true, List.foldl_cons]
  rw [hgen pts none, foldl_optionMin_eq_min?]

end RayFoldLemmas

section ClaimC6

variable {α : Type} [LinearOrderedField α]

/-- C6: in the non-degenerate case, for each occluder the engine selects the
smallest non-negative parametric distance `s` among all intersections of the
bounded backward ray with the footprint boundary
(`rayIntersectionDistance = (crossingDistances ...).min?`), and the ray test
of lines 96-101 reports the occluder as shading iff
`0 ≤ evaluation_height − s·dz ≤ occluder.height` at that nearest crossing;
when no crossing has `s ≥ 0` the minimum is `none` and the occluder does not
occlude. -/
theorem ray_intersection_nearest_crossing (origin d : α × α)
    (z_val dz : α) (obj : SceneObject α)
    (hnd : ¬(|d.1| < 1 / 10 ^ 12 ∧ |d.2| < 1 / 10 ^ 12)) :
    rayIntersectionDistance obj.geometry origin d =
        (crossingDistances obj.geometry origin d (10 ^ 6)).min? ∧
      (rayShades origin z_val dz d obj = true ↔
        ∃ s, (crossingDistances obj.geometry origin d (10 ^ 6)).min? =
              some s ∧
            0 ≤ z_val - s * dz ∧ z_val - s * dz ≤ obj.height_ft) := by
  have hray : rayIntersectionDistance obj.geometry origin d =
      (crossingDistances obj.geometry origin d (10 ^ 6)).min? := by
    rw [rayIntersectionDistance, crossingDistances]
    simp only [if_neg hnd]
    exact rayBest_fold_eq_min? origin.1 origin.2 d.1 d.2 hnd _
  refine ⟨hray, ?_⟩
  rw [rayShades, hray]
  cases hmin : (crossingDistances obj.geometry origin d (10 ^ 6)).min? with
  | none => simp
  | some s =>
    simp only [Bool.and_eq_true, decide_eq_true_eq, Option.some.injEq]
    constructor
    · rintro ⟨h0, h1⟩
      exact ⟨s, rfl, h0, h1⟩
    · rintro ⟨s', hs', h0, h1⟩
      cases hs'
      exact ⟨h0, h1⟩

/-- Witness for C6 at a concrete input: for the rectangle `[2,4] × [0,2]`
and the backward ray from `(0, 1)` in direction `(1, 0)`, the boundary
crossings are at `s = 2` and `s = 4`; the nearest is `s = 2`, and with
evaluation height 5 and `dz = 1` the ray height there is `3 ∈ [0, 10]`,
so the occluder shades. -/
theorem ray_intersection_nearest_crossing_witness :
    rayIntersectionDistance (rectGeom (2 : ℚ) 0 4 2) (0, 1) (1, 0) =
        some 2 ∧
      rayShades ((0 : ℚ), 1) 5 1 (1, 0)
        (SceneObject.mk "structure" "t" 10 (rectGeom 2 0 4 2)) = true := by
  have h := ray_intersection_nearest_crossing ((0 : ℚ), 1) (1, 0) 5 1
    (SceneObject.mk "structure" "t" 10 (rectGeom 2 0 4 2)) (by norm_num)
  have hmin : (crossingDistances (rectGeom (2 : ℚ) 0 4 2) (0, 1) (1, 0)
      (10 ^ 6)).min? = some 2 := by
    norm_num [crossingDistances, rectGeom, segIntersection, sParam,
      List.filterMap, List.filter, List.min?, min_def]
  exact ⟨h.1.trans hmin, h.2.mpr ⟨2, hmin, by norm_num, by norm_num⟩⟩

end ClaimC6

section SimulationLemmas

/-- Zipping a list with a mapped copy of itself pairs each element with its
image. -/
theorem zip_self_map {A B : Type} (l : List A) (f : A → B) :
    l.zip (l.map f) = l.map fun a => (a, f a) := by
  induction l with
  | nil => rfl
  | cons x r ih => simp only [List.map_cons, List.zip_cons_cons, ih]

/-- With no occluders, `is_point_shaded` is exactly the `dz ≤ 0` test. -/
theorem isPointShaded_nil {α : Type} [LinearOrderedField α] (x y z_ft : α)
    (sunDir : α × α × α) :
    isPointShaded x y z_ft sunDir (InternalGeometry.mk []) =
      decide (sunDir.2.2 ≤ 0) := by
  rw [isPointShaded]
  by_cases h : sunDir.2.2 ≤ 0
  · simp [h]
  · simp [h]

/-- A solar altitude in `(0, 90]` degrees has a positive sine in radians —
the vertical component of the sun vector for a daylight position. -/
theorem sin_radians_pos (alt : ℝ) (h0 : 0 < alt) (h90 : alt ≤ 90) :
    0 < Real.sin (radians alt) := by
  rw [radians]
  apply Real.sin_pos_of_pos_of_lt_pi
  · exact mul_pos h0 (by positivity)
  · have hle : alt * (Real.pi / 180) ≤ 90 * (Real.pi / 180) :=
      mul_le_mul_of_nonneg_right h90 (by positivity)
    have hpi : (90 : ℝ) * (Real.pi / 180) = Real.pi / 2 := by ring
    rw [hpi] at hle
    have := Real.pi_pos
    linarith

/-- One simulation step over an occluder-free scene turns a uniform grid of
value `c` into a uniform grid of value `c + step` when the altitude is
positive (and at most 90 degrees), and leaves it unchanged otherwise. -/
theorem stepExposure_uniform (orientDeg h_ft : ℝ) (step : ℤ)
    (xg yg : List ℝ) (c : ℝ) (p : ℝ × ℝ) (hle : p.1 ≤ 90) :
    stepExposure orientDeg (InternalGeometry.mk []) h_ft step xg yg
        (yg.map fun _ => xg.map fun _ => c) p =
      (yg.map fun _ => xg.map fun _ =>
        if 0 < p.1 then c + (step : ℝ) else c) := by
  by_cases hp : p.1 ≤ 0
  · rw [stepExposure, if_pos hp]
    simp [not_lt.2 hp]
  · rw [stepExposure, if_neg hp]
    have hpos : 0 < p.1 := not_le.1 hp
    have hdz : 0 < (sunVectorLocal p.1 p.2 orientDeg).2.2 :=
      sin_radians_pos p.1 hpos hle
    have hshade : ∀ x y : ℝ,
        isPointShaded x y h_ft (sunVectorLocal p.1 p.2 orientDeg)
          (InternalGeometry.mk []) = false := by
      intro x y
      rw [isPointShaded_nil]
      exact decide_eq_false (not_le.2 hdz)
    rw [zip_self_map, List.map_map]
    refine List.map_congr_left fun y _ => ?_
    rw [Function.comp_apply, zip_self_map, List.map_map]
    refine List.map_congr_left fun x _ => ?_
    rw [Function.comp_apply, hshade, if_pos hpos]
    simp

/-- Folding the simulation step over an occluder-free scene from a uniform
grid adds `step` minutes per positive-altitude position to every cell. -/
theorem foldl_stepExposure_uniform (orientDeg h_ft : ℝ) (step : ℤ)
    (xg yg : List ℝ) :
    ∀ (positions : List (ℝ × ℝ)) (c : ℝ), (∀ p ∈ positions, p.1 ≤ 90) →
      positions.foldl
          (stepExposure orientDeg (InternalGeometry.mk []) h_ft step xg yg)
          (yg.map fun _ => xg.map fun _ => c) =
        (yg.map fun _ => xg.map fun _ =>
          c + (step : ℝ) *
            (((positions.filter fun p => decide (0 < p.1)).length : ℕ) :
              ℝ)) := by
  intro positions
  induction positions with
  | nil => intro c _; simp
  | cons p rest ih =>
    intro c hall
    rw [List.foldl_cons,
      stepExposure_uniform orientDeg h_ft step xg yg c p
        (hall p (List.mem_cons_self p rest)),
      ih _ fun q hq => hall q (List.mem_cons_of_mem p hq),
      List.filter_cons]
    by_cases hp : 0 < p.1
    · have hdec : decide (0 < p.1) = true := decide_eq_true hp
      rw [if_pos hp, hdec]
      simp only [if_true, List.length_cons]
      push_cast
      ring_nf
    · have hdec : decide (0 < p.1) = false := decide_eq_false hp
      rw [if_neg hp, hdec]
      simp only [Bool.false_eq_true, if_false]

/-- Reading cell `(yi, xi)` of one simulation step: the step preserves the
cell's existence, keeps its value when the position's altitude is not
positive or the point is shaded, and otherwise adds `step`. -/
theorem stepExposure_cell (orientDeg : ℝ) (objects : InternalGeometry ℝ)
    (h_ft : ℝ) (step : ℤ) (xg yg : List ℝ) (g : List (List ℝ))
    (p : ℝ × ℝ) (yi xi : ℕ) (v' : ℝ)
    (hv' : ((stepExposure orientDeg objects h_ft step xg yg g p)[yi]?.bind
        fun row => row[xi]?) = some v') :
    ∃ v, (g[yi]?.bind fun row => row[xi]?) = some v ∧
      (v' = v ∨ (0 < p.1 ∧ v' = v + (step : ℝ))) := by
  by_cases hp : p.1 ≤ 0
  · rw [stepExposure, if_pos hp] at hv'
    exact ⟨v', hv', Or.inl rfl⟩
  · rw [stepExposure, if_neg hp] at hv'
    rw [List.getElem?_map] at hv'
    cases hz : (yg.zip g)[yi]? with
    | none => rw [hz] at hv'; cases hv'
    | some yrow =>
      rw [hz] at hv'
      simp only [Option.map_some', Option.some_bind] at hv'
      have hzg : g[yi]? = some yrow.2 :=
        (List.getElem?_zip_eq_some.1 hz).2
      rw [List.getElem?_map] at hv'
      cases hx : (xg.zip yrow.2)[xi]? with
      | none => rw [hx] at hv'; cases hv'
      | some xv =>
        rw [hx] at hv'
        have hrow : yrow.2[xi]? = some xv.2 :=
          (List.getElem?_zip_eq_some.1 hx).2
        refine ⟨xv.2, by rw [hzg]; simpa using hrow, ?_⟩
        simp only [Option.map_some', Option.some.injEq] at hv'
        by_cases hsh : isPointShaded xv.1 yrow.1 h_ft
            (sunVectorLocal p.1 p.2 orientDeg) objects = true
        · rw [if_pos hsh] at hv'
          exact Or.inl hv'.symm
        · rw [if_neg hsh] at hv'
          exact Or.inr ⟨not_le.1 hp, hv'.symm⟩

/-- Folding the simulation step increases each existing cell by at most
`step` times the number of positive-altitude positions. -/
theorem foldl_stepExposure_cell_bound (orientDeg : ℝ)
    (objects : InternalGeometry ℝ) (h_ft : ℝ) (step : ℤ)
    (xg yg : List ℝ) (hstep : 0 ≤ step) :
    ∀ (ps : List (ℝ × ℝ)) (g : List (List ℝ)) (yi xi : ℕ) (v' : ℝ),
      ((ps.foldl (stepExposure orientDeg objects h_ft step xg yg)
          g)[yi]?.bind fun row => row[xi]?) = some v' →
      ∃ v, (g[yi]?.bind fun row => row[xi]?) = some v ∧
        v' ≤ v + (step : ℝ) *
          (((ps.filter fun p => decide (0 < p.1)).length : ℕ) : ℝ) := by
  intro ps
  induction ps with
  | nil =>
    intro g yi xi v' hv'
    exact ⟨v', hv', by simp⟩
  | cons p rest ih =>
    intro g yi xi v' hv'
    rw [List.foldl_cons] at hv'
    obtain ⟨v1, hv1, hle1⟩ := ih _ yi xi v' hv'
    obtain ⟨v0, hv0, hcase⟩ :=
      stepExposure_cell orientDeg objects h_ft step xg yg g p yi xi v1 hv1
    refine ⟨v0, hv0, ?_⟩
    have hstepR : (0 : ℝ) ≤ (step : ℝ) := by exact_mod_cast hstep
    rw [List.filter_cons]
    rcases hcase with rfl | ⟨hppos, rfl⟩
    · by_cases hp : 0 < p.1
      · rw [decide_eq_true hp]
        simp only [if_true, List.length_cons]
        push_cast
        nlinarith
      · rw [decide_eq_false hp]
        simp only [Bool.false_eq_true, if_false]
        linarith
    · rw [decide_eq_true hppos]
      simp only [if_true, List.length_cons]
      push_cast
      nlinarith

/-- Cells of the initial exposure grid are zero. -/
theorem exposureInit_cell (xg yg : List ℝ) (yi xi : ℕ) (v : ℝ)
    (hv : ((exposureInit xg yg)[yi]?.bind fun row => row[xi]?) = some v) :
    v = 0 := by
  rw [exposureInit, List.getElem?_map] at hv
  cases hz : yg[yi]? with
  | none => rw [hz] at hv; cases hv
  | some y =>
    rw [hz] at hv
    simp only [Option.map_some', Option.some_bind] at hv
    rw [List.getElem?_map] at hv
    cases hx : xg[xi]? with
    | none => rw [hx] at hv; cases hv
    | some x =>
      rw [hx] at hv
      simp only [Option.map_some', Option.some.injEq] at hv
      exact hv.symm

end SimulationLemmas

section ClaimC3

/-- C3: for a scene with an empty occluder list (so with explicit bounds,
since `resolved_bounds` would otherwise raise) and physical solar altitudes
(at most 90 degrees), every cell of the exposure grid returned by
`run_simulation` equals exactly `step_minutes` times the number of
positions whose altitude is strictly positive. -/
theorem run_simulation_empty_scene_exact (scene : Scene ℝ)
    (h_ft res : ℝ) (step : ℤ) (positions : List (ℝ × ℝ))
    (hobj : scene.objects = [])
    (hpos : ∀ p ∈ positions, p.1 ≤ 90)
    (xg yg : List ℝ) (E : List (List ℝ))
    (hok : runSimulation scene h_ft res step positions =
      Except.ok (xg, yg, E)) :
    E = yg.map fun _ => xg.map fun _ =>
      (step : ℝ) *
        (((positions.filter fun p => decide (0 < p.1)).length : ℕ) :
          ℝ) := by
  simp only [runSimulation] at hok
  cases hres : resolvedBounds scene with
  | error e =>
    rw [hres] at hok
    simp at hok
  | ok quad =>
    obtain ⟨a, b, c, d⟩ := quad
    rw [hres] at hok
    simp only [Except.ok.injEq, Prod.mk.injEq] at hok
    obtain ⟨hxg, hyg, hE⟩ := hok
    subst hxg
    subst hyg
    subst hE
    have hbo : buildObjects scene = InternalGeometry.mk [] := by
      rw [buildObjects, hobj]
    rw [exposureFold, hbo, exposureInit,
      foldl_stepExposure_uniform scene.orientation_deg_cw_from_north h_ft
        step _ _ positions 0 hpos]
    simp only [zero_add]

/-- Witness for C3 at a concrete input: an empty scene with explicit bounds
`0..0 × 0..0`, grid resolution 10 (a single grid cell), step 15 minutes and
exactly one daylight position (altitude 45) produces an exposure grid whose
single cell holds exactly 15 minutes. -/
theorem run_simulation_empty_scene_exact_witness :
    runSimulation
        (Scene.mk (Location.mk (40 : ℝ) (-75) "UTC") 0 []
          (some (Bounds.mk (some 0) (some 0) (some 0) (some 0)
            (656 / 100))))
        5 10 15 [((45 : ℝ), 180)] =
      Except.ok (arange (0 : ℝ) (0 + 10) 10, arange (0 : ℝ) (0 + 10) 10,
        [[(15 : ℝ)]]) := by
  have h := run_simulation_empty_scene_exact
    (Scene.mk (Location.mk (40 : ℝ) (-75) "UTC") 0 []
      (some (Bounds.mk (some 0) (some 0) (some 0) (some 0) (656 / 100))))
    5 10 15 [((45 : ℝ), 180)] rfl
    (by
      intro p hp
      rw [List.mem_singleton] at hp
      subst hp
      norm_num)
    (arange (0 : ℝ) (0 + 10) 10) (arange (0 : ℝ) (0 + 10) 10)
    (exposureFold
      (Scene.mk (Location.mk (40 : ℝ) (-75) "UTC") 0 []
        (some (Bounds.mk (some 0) (some 0) (some 0) (some 0)
          (656 / 100)))).orientation_deg_cw_from_north
      (buildObjects
        (Scene.mk (Location.mk (40 : ℝ) (-75) "UTC") 0 []
          (some (Bounds.mk (some 0) (some 0) (some 0) (some 0)
            (656 / 100)))))
      5 15 (arange (0 : ℝ) (0 + 10) 10) (arange (0 : ℝ) (0 + 10) 10)
      [((45 : ℝ), 180)])
    rfl
  have hxg : arange (0 : ℝ) (0 + 10) 10 = [0] := by
    rw [arange]
    have hceil : ⌈((0 : ℝ) + 10 - 0) / 10⌉₊ = 1 := by
      norm_num
    rw [hceil]
    norm_num [List.range_succ]
  have hrun : runSimulation
      (Scene.mk (Location.mk (40 : ℝ) (-75) "UTC") 0 []
        (some (Bounds.mk (some 0) (some 0) (some 0) (some 0)
          (656 / 100))))
      5 10 15 [((45 : ℝ), 180)] =
    Except.ok (arange (0 : ℝ) (0 + 10) 10, arange (0 : ℝ) (0 + 10) 10,
      exposureFold
        (Scene.mk (Location.mk (40 : ℝ) (-75) "UTC") 0 []
          (some (Bounds.mk (some 0) (some 0) (some 0) (some 0)
            (656 / 100)))).orientation_deg_cw_from_north
        (buildObjects
          (Scene.mk (Location.mk (40 : ℝ) (-75) "UTC") 0 []
            (some (Bounds.mk (some 0) (some 0) (some 0) (some 0)
              (656 / 100)))))
        5 15 (arange (0 : ℝ) (0 + 10) 10) (arange (0 : ℝ) (0 + 10) 10)
        [((45 : ℝ), 180)]) := rfl
  rw [hrun, h]
  have hfil : ([((45 : ℝ), (180 : ℝ))].filter fun p => decide (0 < p.1)) =
      [((45 : ℝ), 180)] := by
    rw [List.filter_cons,
      decide_eq_true (show (0 : ℝ) < ((45 : ℝ), (180 : ℝ)).1 by norm_num)]
    simp
  rw [hxg, hfil]
  simp only [List.map_cons, List.map_nil, List.length_cons, List.length_nil]
  norm_num

end ClaimC3

section ClaimC4

/-- C4: for a successful `run_simulation` with non-negative step, every
cell of the exposure grid starts at zero, is non-decreasing as positions
are processed, positions with altitude ≤ 0 contribute nothing (the grid is
unchanged by them), and the final value of every cell is at most
`step_minutes` times the number of positions with altitude strictly
greater than 0. -/
theorem run_simulation_exposure_grid_invariants (scene : Scene ℝ)
    (h_ft res : ℝ) (step : ℤ) (positions : List (ℝ × ℝ))
    (hstep : 0 ≤ step) (xg yg : List ℝ) (E : List (List ℝ))
    (hok : runSimulation scene h_ft res step positions =
      Except.ok (xg, yg, E)) :
    (∀ row ∈ exposureInit xg yg, ∀ v ∈ row, v = 0) ∧
    E = exposureFold scene.orientation_deg_cw_from_north
        (buildObjects scene) h_ft step xg yg positions ∧
    (∀ (n yi xi : ℕ) (v v' : ℝ),
      ((exposureFold scene.orientation_deg_cw_from_north
          (buildObjects scene) h_ft step xg yg
          (positions.take n))[yi]?.bind fun row => row[xi]?) = some v →
      ((exposureFold scene.orientation_deg_cw_from_north
          (buildObjects scene) h_ft step xg yg
          (positions.take (n + 1)))[yi]?.bind fun row => row[xi]?) =
        some v' →
      v ≤ v') ∧
    (∀ (n : ℕ) (p : ℝ × ℝ), positions[n]? = some p → p.1 ≤ 0 →
      exposureFold scene.orientation_deg_cw_from_north
          (buildObjects scene) h_ft step xg yg (positions.take (n + 1)) =
        exposureFold scene.orientation_deg_cw_from_north
          (buildObjects scene) h_ft step xg yg (positions.take n)) ∧
    (∀ (yi xi : ℕ) (v : ℝ),
      (E[yi]?.bind fun row => row[xi]?) = some v →
      v ≤ (step : ℝ) *
        (((positions.filter fun p => decide (0 < p.1)).length : ℕ) :
          ℝ)) := by
  have hstepR : (0 : ℝ) ≤ (step : ℝ) := by exact_mod_cast hstep
  simp only [runSimulation] at hok
  cases hres : resolvedBounds scene with
  | error e =>
    rw [hres] at hok
    simp at hok
  | ok quad =>
    obtain ⟨a, b, c, d⟩ := quad
    rw [hres] at hok
    simp only [Except.ok.injEq, Prod.mk.injEq] at hok
    obtain ⟨hxg, hyg, hE⟩ := hok
    subst hxg
    subst hyg
    subst hE
    refine ⟨?_, rfl, ?_, ?_, ?_⟩
    · intro row hrow v hv
      rw [exposureInit] at hrow
      obtain ⟨y, _, rfl⟩ := List.mem_map.1 hrow
      obtain ⟨x, _, rfl⟩ := List.mem_map.1 hv
      rfl
    · intro n yi xi v v' hv hv'
      cases hn : positions[n]? with
      | none =>
        have h1 : positions.take (n + 1) = positions.take n := by
          rw [List.take_succ, hn]
          simp
        rw [h1] at hv'
        exact le_of_eq (Option.some.inj (hv.symm.trans hv'))
      | some p =>
        have h1 : positions.take (n + 1) = positions.take n ++ [p] := by
          rw [List.take_succ, hn]
          rfl
        rw [h1, exposureFold, List.foldl_append, List.foldl_cons,
          List.foldl_nil] at hv'
        obtain ⟨v0, hv0, hcase⟩ :=
          stepExposure_cell _ _ _ _ _ _ _ _ yi xi v' hv'
        rw [exposureFold] at hv
        have hveq : v0 = v := Option.some.inj (hv0.symm.trans hv)
        subst hveq
        rcases hcase with rfl | ⟨_, rfl⟩
        · exact le_rfl
        · linarith
    · intro n p hn hp0
      have h1 : positions.take (n + 1) = positions.take n ++ [p] := by
        rw [List.take_succ, hn]
        rfl
      rw [h1, exposureFold, exposureFold, List.foldl_append,
        List.foldl_cons, List.foldl_nil, stepExposure, if_pos hp0]
    · intro yi xi v hv
      rw [exposureFold] at hv
      obtain ⟨v0, hv0, hle⟩ :=
        foldl_stepExposure_cell_bound scene.orientation_deg_cw_from_north
          (buildObjects scene) h_ft step _ _ hstep positions _ yi xi v hv
      rw [exposureInit_cell _ _ yi xi v0 hv0, zero_add] at hle
      exact hle

/-- Witness for C4 at a concrete input: a single position with altitude
`-5 ≤ 0` leaves the exposure grid unchanged (processing the one-element
prefix equals processing the empty prefix). -/
theorem run_simulation_exposure_grid_invariants_witness :
    exposureFold (0 : ℝ)
        (buildObjects (Scene.mk (Location.mk (40 : ℝ) (-75) "UTC") 0 []
          (some (Bounds.mk (some 0) (some 0) (some 0) (some 0)
            (656 / 100)))))
        5 15 (arange (0 : ℝ) (0 + 10) 10) (arange (0 : ℝ) (0 + 10) 10)
        ([((-5 : ℝ), 0)].take (0 + 1)) =
      exposureFold (0 : ℝ)
        (buildObjects (Scene.mk (Location.mk (40 : ℝ) (-75) "UTC") 0 []
          (some (Bounds.mk (some 0) (some 0) (some 0) (some 0)
            (656 / 100)))))
        5 15 (arange (0 : ℝ) (0 + 10) 10) (arange (0 : ℝ) (0 + 10) 10)
        ([((-5 : ℝ), 0)].take 0) :=
  (run_simulation_exposure_grid_invariants
      (Scene.mk (Location.mk (40 : ℝ) (-75) "UTC") 0 []
        (some (Bounds.mk (some 0) (some 0) (some 0) (some 0) (656 / 100))))
      5 10 15 [((-5 : ℝ), 0)] (by norm_num)
      (arange (0 : ℝ) (0 + 10) 10) (arange (0 : ℝ) (0 + 10) 10)
      (exposureFold
        (Scene.mk (Location.mk (40 : ℝ) (-75) "UTC") 0 []
          (some (Bounds.mk (some 0) (some 0) (some 0) (some 0)
            (656 / 100)))).orientation_deg_cw_from_north
        (buildObjects
          (Scene.mk (Location.mk (40 : ℝ) (-75) "UTC") 0 []
            (some (Bounds.mk (some 0) (some 0) (some 0) (some 0)
              (656 / 100)))))
        5 15 (arange (0 : ℝ) (0 + 10) 10) (arange (0 : ℝ) (0 + 10) 10)
        [((-5 : ℝ), 0)])
      rfl).2.2.2.1 0 ((-5 : ℝ), 0) rfl (by norm_num)

end ClaimC4

end BackyardSunMap
